import Mathlib

/-! Shallow embedding of the employee-directory data layer: the `Helpers`
utilities (src/js/utils/helpers.js), the `Employee` model and the
`EmployeeCollection` repository, and the API fallback path of `EmployeeAPI`.
JS strings are modelled as Lean `String` (with ASCII case mapping standing in
for `toLowerCase`), the JS numbers occurring in this data layer as `Int`,
record identifiers as strings, and the value of an arbitrary object property
(as inspected by the generic sort helper) as `JSVal`. Observer callbacks are
opaque; a notification counter records each `notifyObservers()` call. -/

/-- Value of a JS object property as seen by the generic sort helper.
Null and undefined are conflated (the helper only distinguishes them from
other values via loose equality `== null`); numbers are restricted to the
integers this program stores. -/
inductive JSVal where
  | null
  | num (n : Int)
  | str (s : String)
  | bool (b : Bool)
deriving DecidableEq

/-- Model of `String.prototype.toLowerCase` (ASCII case mapping). -/
def jsToLower (s : String) : String := String.mk (s.data.map Char.toLower)

/-- Model of `String.prototype.trim`: strip leading and trailing
whitespace. -/
def jsTrim (s : String) : String :=
  String.mk (((s.data.dropWhile Char.isWhitespace).reverse.dropWhile Char.isWhitespace).reverse)

/-- Lexicographic comparison of char lists, modelling the JS string
ordering (code-unit comparison). -/
def listLtChars : List Char → List Char → Bool
  | [], [] => false
  | [], _ :: _ => true
  | _ :: _, [] => false
  | a :: as, b :: bs => if a < b then true else if b < a then false else listLtChars as bs

/-- Value of a run of decimal digits. -/
def natFromDigits (l : List Char) : Nat :=
  l.foldl (fun acc c => acc * 10 + (c.toNat - 48)) 0

/-- Model of the JS ToNumber conversion on strings, restricted to optionally
signed decimal integer numerals (the only numeric strings this program can
feed to a comparison); `none` models NaN. -/
def stringToNumber (s : String) : Option Int :=
  let t := jsTrim s
  if t = "" then some 0
  else
    match t.data with
    | '-' :: rest =>
        if rest ≠ [] ∧ rest.all Char.isDigit then some (-(natFromDigits rest : Int)) else none
    | '+' :: rest =>
        if rest ≠ [] ∧ rest.all Char.isDigit then some (natFromDigits rest : Int) else none
    | l => if l.all Char.isDigit then some (natFromDigits l : Int) else none

/-- Model of the JS ToNumber conversion on the values above; `none` is NaN.
Note the sort helper never converts null/undefined (it filters them out
first), so conflating undefined with null is harmless here. -/
def toNumber : JSVal → Option Int
  | .null => some 0
  | .num n => some n
  | .bool b => some (if b then 1 else 0)
  | .str s => stringToNumber s

/-- Model of the JS abstract relational comparison `a < b`: two strings
compare lexicographically, otherwise both sides are converted to numbers and
any NaN makes the comparison false. -/
def jsLt : JSVal → JSVal → Bool
  | .str a, .str b => listLtChars a.data b.data
  | a, b =>
    match toNumber a, toNumber b with
    | some x, some y => x < y
    | _, _ => false

/-- Model of the JS comparison `a > b`. -/
def jsGt (a b : JSVal) : Bool := jsLt b a

/-- Lowercasing step of `Helpers.sortByProperty`: only string values are
lowercased. -/
def jsValLower : JSVal → JSVal
  | .str s => .str (jsToLower s)
  | v => v

/-- The comparator built by `Helpers.sortByProperty` (helpers.js lines
219-239): null/undefined sort last for `"asc"` and first otherwise; strings
are compared case-insensitively. -/
def sortCmp (direction : String) (aVal bVal : JSVal) : Int :=
  if aVal = .null ∧ bVal = .null then 0
  else if aVal = .null then (if direction = "asc" then 1 else -1)
  else if bVal = .null then (if direction = "asc" then -1 else 1)
  else
    let a := jsValLower aVal
    let b := jsValLower bVal
    if direction = "asc" then
      if jsLt a b then -1 else if jsGt a b then 1 else 0
    else
      if jsGt a b then -1 else if jsLt a b then 1 else 0

/-- Insert an element after every already-placed element the comparator puts
weakly before it. -/
def insertCmp (cmp : α → α → Int) (x : α) : List α → List α
  | [] => [x]
  | y :: ys => if cmp y x ≤ 0 then y :: insertCmp cmp x ys else x :: y :: ys

/-- Stable comparator sort modelling `Array.prototype.sort` (stable since
ES2019): elements are inserted left to right, each going after all earlier
elements that compare weakly before it. -/
def jsSort (cmp : α → α → Int) (l : List α) : List α :=
  l.foldl (fun acc x => insertCmp cmp x acc) []

/-- Containment of `t` as a contiguous run of `s`, on char lists. -/
def hasSub : List Char → List Char → Bool
  | [], t => t.isEmpty
  | c :: rest, t => t.isPrefixOf (c :: rest) || hasSub rest t

/-- Model of `String.prototype.includes`. -/
def strIncludes (s t : String) : Bool := hasSub s.data t.data

/-- Insert thousands separators into a reversed digit list. -/
def commaGroupRev : List Char → List Char
  | a :: b :: c :: d :: rest => a :: b :: c :: ',' :: commaGroupRev (d :: rest)
  | l => l

/-- Model of `Helpers.formatCurrency`: `Intl.NumberFormat` en-US currency
with zero fraction digits applied to the integer inputs this program stores;
a null value takes the `'$0'` fallback branch. -/
def Helpers.formatCurrency (value : Option Int) : String :=
  match value with
  | none => "$0"
  | some n =>
    let grouped := (commaGroupRev (Nat.toDigits 10 n.natAbs).reverse).reverse
    (if n < 0 then "-" else "") ++ "$" ++ String.mk grouped

/-- Model of `Helpers.formatPhone`: strip non-digits; a 10-digit result is
rendered `(abc) def-ghij`, anything else returns the input. -/
def Helpers.formatPhone (phone : String) : String :=
  if phone = "" then ""
  else
    let cleaned := phone.data.filter Char.isDigit
    if cleaned.length = 10 then
      "(" ++ String.mk (cleaned.take 3) ++ ") " ++ String.mk ((cleaned.drop 3).take 3)
        ++ "-" ++ String.mk (cleaned.drop 6)
    else phone

/-- A nonempty run of characters that are neither whitespace nor an at sign,
modelling one `[^\s@]+` chunk of the email regex. -/
def emailChunkOk (l : List Char) : Bool :=
  !l.isEmpty && l.all (fun c => !c.isWhitespace && c ≠ '@')

/-- Model of `Helpers.isValidEmail`: the anchored regex with three `[^\s@]+`
chunks separated by one at sign and then one required dot. Splitting on the
at sign must yield exactly two chunks (no chunk may contain an at sign), and
the domain chunk needs a dot that is neither its first nor last character. -/
def Helpers.isValidEmail (email : String) : Bool :=
  match email.data.splitOn '@' with
  | [localPart, domainPart] =>
    emailChunkOk localPart && emailChunkOk domainPart &&
      ((domainPart.drop 1).dropLast.contains '.')
  | _ => false

/-- Model of `Helpers.isValidPhone`: empty phones are valid (optional field);
otherwise the digits-only residue must match `[\+]?[1-9][\d]{0,15}`, which on
an all-digit string means a nonzero leading digit and at most 16 digits. -/
def Helpers.isValidPhone (phone : String) : Bool :=
  if phone = "" then true
  else
    match phone.data.filter Char.isDigit with
    | [] => false
    | c :: rest => ('1' ≤ c && c ≤ '9') && (c :: rest).length ≤ 16 && rest.length ≥ 0

/-- Uppercase hexadecimal digit. -/
def hexDigit (n : Nat) : Char :=
  if n < 10 then Char.ofNat (48 + n) else Char.ofNat (55 + n)

/-- UTF-8 bytes of a character. -/
def charUTF8Bytes (c : Char) : List Nat :=
  let n := c.toNat
  if n < 128 then [n]
  else if n < 2048 then [192 + n / 64, 128 + n % 64]
  else if n < 65536 then [224 + n / 4096, 128 + (n / 64) % 64, 128 + n % 64]
  else [240 + n / 262144, 128 + (n / 4096) % 64, 128 + (n / 64) % 64, 128 + n % 64]

/-- Characters `encodeURIComponent` leaves unescaped (letters, digits, and
the unreserved marks; character 39 is the apostrophe). -/
def uriUnreserved (c : Char) : Bool :=
  c.isAlphanum || c = '-' || c = '_' || c = '.' || c = '!' || c = '~' || c = '*'
    || c = Char.ofNat 39 || c = '(' || c = ')'

/-- Model of the JS global `encodeURIComponent`: unreserved characters kept,
every other character percent-encoded as its UTF-8 bytes in uppercase hex. -/
def encodeURIComponent (s : String) : String :=
  String.mk (s.data.foldr (fun c acc =>
    if uriUnreserved c then c :: acc
    else (charUTF8Bytes c).foldr
      (fun b acc2 => '%' :: hexDigit (b / 16) :: hexDigit (b % 16) :: acc2) acc) [])

/-- Employee record (src/unnamed/part_002, class `Employee`): the nine source
fields plus the avatar and the three derived display fields the constructor
computes. Identifiers are modelled as strings; `salary` is an integer or the
JS null that `update` can store into it. -/
structure Employee where
  id : String
  name : String
  email : String
  phone : String
  department : String
  position : String
  salary : Option Int
  hireDate : String
  isActive : Bool
  avatar : String
  fullName : String
  displaySalary : String
  formattedPhone : String
deriving DecidableEq

/-- Model of `Employee.prototype._generateAvatar`: the ui-avatars URL built
from the (URI-encoded) name. -/
def Employee.generateAvatar (name : String) : String :=
  "https://ui-avatars.com/api/?name=" ++ encodeURIComponent name
    ++ "&background=2563eb&color=fff&size=40"

/-- Constructor input: `none` stands for an absent (or JS-falsy, for the
`||`-defaulted fields) key of the `data` object. -/
structure EmployeeData where
  id : Option String := none
  name : Option String := none
  email : Option String := none
  phone : Option String := none
  department : Option String := none
  position : Option String := none
  salary : Option Int := none
  hireDate : Option String := none
  isActive : Option Bool := none
  avatar : Option String := none
deriving DecidableEq

/-- Model of the `Employee` constructor. The two impure defaults are passed
in: `genId` models `Helpers.generateId()` (used when `data.id` is absent) and
`now` models `new Date().toISOString()` (used when `data.hireDate` is
absent). A missing or falsy `data.salary` defaults to 0, so a constructed
employee always carries a number there. -/
def Employee.create (genId now : String) (d : EmployeeData) : Employee :=
  let name := d.name.getD ""
  let phone := d.phone.getD ""
  let salary := d.salary.getD 0
  { id := d.id.getD genId
    name := name
    email := d.email.getD ""
    phone := phone
    department := d.department.getD ""
    position := d.position.getD ""
    salary := some salary
    hireDate := d.hireDate.getD now
    isActive := d.isActive.getD true
    avatar := d.avatar.getD (Employee.generateAvatar name)
    fullName := name
    displaySalary := Helpers.formatCurrency (some salary)
    formattedPhone := Helpers.formatPhone phone }

/-- Partial field set passed to `Employee.prototype.update`. A `some` outer
layer means the key is present in `data`; for `salary` the inner `Option`
is the stored value (with `none` for JS null). Keys that are not own
properties of an employee are collected in `unknownKeys`; the
`hasOwnProperty` guard makes the source ignore them. The derived keys
(`fullName`, `displaySalary`, `formattedPhone`, `avatar`) are own properties
and are merged like any other, but the recomputation step overwrites them. -/
structure EmployeeUpdate where
  id : Option String := none
  name : Option String := none
  email : Option String := none
  phone : Option String := none
  department : Option String := none
  position : Option String := none
  salary : Option (Option Int) := none
  hireDate : Option String := none
  isActive : Option Bool := none
  avatar : Option String := none
  fullName : Option String := none
  displaySalary : Option String := none
  formattedPhone : Option String := none
  unknownKeys : List String := []
deriving DecidableEq

/-- Model of `Employee.prototype.update` (part_002 lines 614-628): merge
every present own-property key except `id`, then recompute `fullName`,
`displaySalary`, `formattedPhone` and `avatar` from the merged fields. -/
def Employee.update (e : Employee) (data : EmployeeUpdate) : Employee :=
  let merged : Employee :=
    { id := e.id
      name := data.name.getD e.name
      email := data.email.getD e.email
      phone := data.phone.getD e.phone
      department := data.department.getD e.department
      position := data.position.getD e.position
      salary := data.salary.getD e.salary
      hireDate := data.hireDate.getD e.hireDate
      isActive := data.isActive.getD e.isActive
      avatar := data.avatar.getD e.avatar
      fullName := data.fullName.getD e.fullName
      displaySalary := data.displaySalary.getD e.displaySalary
      formattedPhone := data.formattedPhone.getD e.formattedPhone }
  { merged with
    fullName := merged.name
    displaySalary := Helpers.formatCurrency merged.salary
    formattedPhone := Helpers.formatPhone merged.phone
    avatar := Employee.generateAvatar merged.name }

/-- Model of `Employee.prototype.validate`: the error list accumulated in
source order, paired with `isValid = errors.length === 0`. The salary check
fires only on a truthy (nonzero, non-null) salary that is negative. -/
def Employee.validate (e : Employee) : Bool × List String :=
  let errors :=
    (if e.name = "" ∨ (jsTrim e.name).length < 2
      then ["Name must be at least 2 characters long"] else [])
    ++ (if e.email = "" ∨ ¬ Helpers.isValidEmail e.email
      then ["Valid email address is required"] else [])
    ++ (if e.phone ≠ "" ∧ ¬ Helpers.isValidPhone e.phone
      then ["Phone number format is invalid"] else [])
    ++ (if e.department = "" ∨ (jsTrim e.department).length = 0
      then ["Department is required"] else [])
    ++ (if e.position = "" ∨ (jsTrim e.position).length < 2
      then ["Position must be at least 2 characters long"] else [])
    ++ (if (match e.salary with | some n => n != 0 && decide (n < 0) | none => false)
      then ["Salary must be a positive number"] else [])
  (errors.isEmpty, errors)

/-- Model of `Employee.prototype.matchesSearch`: an empty (falsy) term
matches; otherwise some truthy field among name, email, department, position
and phone must contain the lowercased term. -/
def Employee.matchesSearch (e : Employee) (searchTerm : String) : Bool :=
  if searchTerm = "" then true
  else
    let term := jsToLower searchTerm
    [e.name, e.email, e.department, e.position, e.phone].any
      (fun f => f ≠ "" && strIncludes (jsToLower f) term)

/-- Property access `emp[property]` for the properties an `Employee` owns;
any other property reads as undefined (modelled by `JSVal.null`, which is all
the sort comparator observes of it). -/
def Employee.getProp (e : Employee) (p : String) : JSVal :=
  if p = "id" then .str e.id
  else if p = "name" then .str e.name
  else if p = "email" then .str e.email
  else if p = "phone" then .str e.phone
  else if p = "department" then .str e.department
  else if p = "position" then .str e.position
  else if p = "salary" then (match e.salary with | some n => .num n | none => .null)
  else if p = "hireDate" then .str e.hireDate
  else if p = "isActive" then .bool e.isActive
  else if p = "avatar" then .str e.avatar
  else if p = "fullName" then .str e.fullName
  else if p = "displaySalary" then .str e.displaySalary
  else if p = "formattedPhone" then .str e.formattedPhone
  else .null

/-- Model of `Helpers.sortByProperty` specialised to employee arrays (the
only arrays this program sorts). -/
def Helpers.sortByProperty (array : List Employee) (property : String)
    (direction : String) : List Employee :=
  jsSort (fun a b => sortCmp direction (a.getProp property) (b.getProp property)) array

/-- Result of `EmployeeCollection.addEmployee`: either the thrown duplicate
error message, or the employee the method returns. -/
inductive AddResult where
  | failed (msg : String)
  | added (e : Employee)
deriving DecidableEq

/-- Result of `EmployeeCollection.updateEmployee`: the null it returns when
no record has the id, the thrown duplicate error message, or the updated
employee it returns. -/
inductive UpdateResult where
  | notFound
  | dupError (msg : String)
  | updated (e : Employee)
deriving DecidableEq

/-- State of an `EmployeeCollection` (src/unnamed/part_003). The observer
array holds opaque callbacks; `notifications` counts the
`notifyObservers()` calls instead. -/
structure EmployeeCollection where
  employees : List Employee
  filteredEmployees : List Employee
  currentPage : Int
  pageSize : Int
  sortField : String
  sortDirection : String
  searchTerm : String
  departmentFilters : List String
  notifications : Nat
deriving DecidableEq

/-- The constructor state of `EmployeeCollection`. -/
def EmployeeCollection.init : EmployeeCollection :=
  { employees := []
    filteredEmployees := []
    currentPage := 1
    pageSize := 25
    sortField := "name"
    sortDirection := "asc"
    searchTerm := ""
    departmentFilters := []
    notifications := 0 }

/-- Model of `notifyObservers`: every registered callback runs; the state
records that one notification round happened. -/
def EmployeeCollection.notifyObservers (c : EmployeeCollection) : EmployeeCollection :=
  { c with notifications := c.notifications + 1 }

/-- Model of `findById`: first record with strictly equal id, if any. -/
def EmployeeCollection.findById (c : EmployeeCollection) (id : String) : Option Employee :=
  c.employees.find? (fun emp => emp.id == id)

/-- Model of `findByEmail`: first record whose lowercased email equals the
lowercased argument, if any. -/
def EmployeeCollection.findByEmail (c : EmployeeCollection) (email : String) : Option Employee :=
  c.employees.find? (fun emp => jsToLower emp.email == jsToLower email)

/-- The list `applyFilters` recomputes: active records, then the search
filter (when the term is truthy), then the department filter (when the
filter list is nonempty), then `Helpers.sortByProperty`. -/
def EmployeeCollection.applyFiltersList (c : EmployeeCollection) : List Employee :=
  let filtered := c.employees.filter (fun emp => emp.isActive)
  let filtered :=
    if c.searchTerm ≠ "" then filtered.filter (fun emp => emp.matchesSearch c.searchTerm)
    else filtered
  let filtered :=
    if c.departmentFilters.length > 0 then
      filtered.filter (fun emp => c.departmentFilters.contains emp.department)
    else filtered
  Helpers.sortByProperty filtered c.sortField c.sortDirection

/-- Model of `applyFilters`: store the recomputed view. -/
def EmployeeCollection.applyFilters (c : EmployeeCollection) : EmployeeCollection :=
  { c with filteredEmployees := c.applyFiltersList }

/-- Model of `addEmployee` on an already-constructed employee instance:
throw on any record (active or not) with a case-insensitively equal email,
otherwise append, recompute the view and notify. A throw happens before any
mutation, so the returned state is the input state. -/
def EmployeeCollection.addEmployee (c : EmployeeCollection) (e : Employee) :
    EmployeeCollection × AddResult :=
  if (c.findByEmail e.email).isSome then
    (c, .failed "Employee with this email already exists")
  else
    let c := { c with employees := c.employees ++ [e] }
    ((c.applyFilters).notifyObservers, .added e)

/-- Replace the first record carrying `id` (the object `findById` returned
and `update` mutated in place). -/
def replaceById (l : List Employee) (id : String) (newE : Employee) : List Employee :=
  match l with
  | [] => []
  | x :: xs => if x.id == id then newE :: xs else x :: replaceById xs id newE

/-- Model of `updateEmployee`: null when the id is absent; a throw when the
data carries a truthy email that differs (strictly) from the current one yet
`findByEmail` finds some record with it; otherwise merge, recompute the view
and notify. -/
def EmployeeCollection.updateEmployee (c : EmployeeCollection) (id : String)
    (data : EmployeeUpdate) : EmployeeCollection × UpdateResult :=
  match c.findById id with
  | none => (c, .notFound)
  | some employee =>
    let dup :=
      match data.email with
      | some em => em != "" && em != employee.email && (c.findByEmail em).isSome
      | none => false
    if dup then (c, .dupError "Employee with this email already exists")
    else
      let updated := employee.update data
      let c := { c with employees := replaceById c.employees id updated }
      ((c.applyFilters).notifyObservers, .updated updated)

/-- Model of `removeEmployee`: false when the id is absent; otherwise remove
the record at the found index, recompute the view and notify. -/
def EmployeeCollection.removeEmployee (c : EmployeeCollection) (id : String) :
    EmployeeCollection × Bool :=
  match c.employees.findIdx? (fun emp => emp.id == id) with
  | none => (c, false)
  | some i =>
    let c := { c with employees := c.employees.eraseIdx i }
    ((c.applyFilters).notifyObservers, true)

/-- Model of `deactivateEmployee`: false when the id is absent; otherwise
clear the `isActive` flag in place, recompute the view and notify. -/
def EmployeeCollection.deactivateEmployee (c : EmployeeCollection) (id : String) :
    EmployeeCollection × Bool :=
  match c.findById id with
  | none => (c, false)
  | some employee =>
    let c := { c with employees := replaceById c.employees id { employee with isActive := false } }
    ((c.applyFilters).notifyObservers, true)

/-- Model of `setSearchTerm`: store the term, reset to page 1, recompute the
view, notify. -/
def EmployeeCollection.setSearchTerm (c : EmployeeCollection) (term : String) :
    EmployeeCollection :=
  (({ c with searchTerm := term, currentPage := 1 }).applyFilters).notifyObservers

/-- Model of `setDepartmentFilters` on an array argument: store the list,
reset to page 1, recompute the view, notify. -/
def EmployeeCollection.setDepartmentFilters (c : EmployeeCollection)
    (departments : List String) : EmployeeCollection :=
  (({ c with departmentFilters := departments, currentPage := 1 }).applyFilters).notifyObservers

/-- Model of `setSorting`: store field and direction, recompute the view,
notify. The source never touches `currentPage` here. -/
def EmployeeCollection.setSorting (c : EmployeeCollection) (field direction : String) :
    EmployeeCollection :=
  (({ c with sortField := field, sortDirection := direction }).applyFilters).notifyObservers

/-- Model of `setPageSize` on an integral argument: store the size, reset to
page 1, notify (the view is not recomputed here). -/
def EmployeeCollection.setPageSize (c : EmployeeCollection) (size : Int) :
    EmployeeCollection :=
  ({ c with pageSize := size, currentPage := 1 }).notifyObservers

/-- Ceiling division modelling `Math.ceil(a / b)`; it agrees with the JS
computation whenever `b` is positive (the only case the program reaches with
its default and UI-selectable page sizes). -/
def ceilDiv (a b : Int) : Int := (a + b - 1) / b

/-- Model of `getTotalPages`. -/
def EmployeeCollection.getTotalPages (c : EmployeeCollection) : Int :=
  ceilDiv (c.filteredEmployees.length : Int) c.pageSize

/-- Model of `setCurrentPage`: clamp the requested page into
`[1, totalPages]` (from below by 1 when the range is empty) and notify. -/
def EmployeeCollection.setCurrentPage (c : EmployeeCollection) (page : Int) :
    EmployeeCollection :=
  ({ c with currentPage := max 1 (min page c.getTotalPages) }).notifyObservers

/-- The record `getPaginationInfo` returns. -/
structure PaginationInfo where
  currentPage : Int
  totalPages : Int
  totalItems : Int
  pageSize : Int
  startIndex : Int
  endIndex : Int
  hasNext : Bool
  hasPrevious : Bool
deriving DecidableEq

/-- Model of `getPaginationInfo` (part_003 lines 245-261). -/
def EmployeeCollection.getPaginationInfo (c : EmployeeCollection) : PaginationInfo :=
  let totalItems : Int := c.filteredEmployees.length
  let totalPages := c.getTotalPages
  let startIndex := (c.currentPage - 1) * c.pageSize + 1
  let endIndex := min (startIndex + c.pageSize - 1) totalItems
  { currentPage := c.currentPage
    totalPages := totalPages
    totalItems := totalItems
    pageSize := c.pageSize
    startIndex := if totalItems > 0 then startIndex else 0
    endIndex := if totalItems > 0 then endIndex else 0
    hasNext := c.currentPage < totalPages
    hasPrevious := c.currentPage > 1 }

/-- Model of `loadEmployees` on an array of already-constructed instances:
replace the store, recompute the view, notify. -/
def EmployeeCollection.loadEmployees (c : EmployeeCollection) (data : List Employee) :
    EmployeeCollection :=
  (({ c with employees := data }).applyFilters).notifyObservers

/-- The five mock records of `EmployeeAPI.getMockEmployees` (part_000 lines
226-282); their numeric ids are modelled as strings. -/
def EmployeeAPI.mockData : List EmployeeData :=
  [ { id := some "1", name := some "John Doe", email := some "john.doe@company.com",
      phone := some "(555) 123-4567", department := some "Engineering",
      position := some "Senior Software Engineer", salary := some 95000,
      hireDate := some "2021-03-15T00:00:00.000Z" },
    { id := some "2", name := some "Jane Smith", email := some "jane.smith@company.com",
      phone := some "(555) 234-5678", department := some "Marketing",
      position := some "Marketing Manager", salary := some 75000,
      hireDate := some "2020-08-22T00:00:00.000Z" },
    { id := some "3", name := some "Mike Johnson", email := some "mike.johnson@company.com",
      phone := some "(555) 345-6789", department := some "Sales",
      position := some "Sales Representative", salary := some 60000,
      hireDate := some "2022-01-10T00:00:00.000Z" },
    { id := some "4", name := some "Sarah Wilson", email := some "sarah.wilson@company.com",
      phone := some "(555) 456-7890", department := some "HR",
      position := some "HR Manager", salary := some 70000,
      hireDate := some "2019-11-05T00:00:00.000Z" },
    { id := some "5", name := some "David Brown", email := some "david.brown@company.com",
      phone := some "(555) 567-8901", department := some "Finance",
      position := some "Financial Analyst", salary := some 65000,
      hireDate := some "2021-09-18T00:00:00.000Z" } ]

/-- Model of `EmployeeAPI.getMockEmployees`: the mock records run through the
`Employee` constructor. Every record supplies its id and hire date, so the
impure constructor defaults are never consulted (passed here as empty). -/
def EmployeeAPI.getMockEmployees : List Employee :=
  EmployeeAPI.mockData.map (Employee.create "" "")

/-- Model of `EmployeeAPI.fetchEmployees` (part_000 lines 153-165). The
awaited `fetchUsers()` call and the randomised `Employee.fromApiData`
conversion of its rows are abstracted into `users`: on success the converted
employee list, on failure the thrown error. The catch branch returns the
mock employees instead of propagating the error. -/
def EmployeeAPI.fetchEmployees (users : Except String (List Employee)) : List Employee :=
  match users with
  | .ok employees => employees
  | .error _ => EmployeeAPI.getMockEmployees

theorem mem_insertCmp {α : Type} (cmp : α → α → Int) (x z : α) (l : List α) :
    z ∈ insertCmp cmp x l ↔ z = x ∨ z ∈ l := by
  induction l with
  | nil => simp [insertCmp]
  | cons y ys ih =>
    by_cases h : cmp y x ≤ 0
    · simp only [insertCmp, if_pos h, List.mem_cons, ih]
      tauto
    · simp only [insertCmp, if_neg h, List.mem_cons]

theorem mem_foldl_insertCmp {α : Type} (cmp : α → α → Int) (l : List α) :
    ∀ (acc : List α) (z : α),
      (z ∈ l.foldl (fun acc x => insertCmp cmp x acc) acc ↔ z ∈ acc ∨ z ∈ l) := by
  induction l with
  | nil => intro acc z; simp
  | cons y ys ih =>
    intro acc z
    simp only [List.foldl_cons, ih, mem_insertCmp, List.mem_cons]
    tauto

theorem mem_jsSort {α : Type} (cmp : α → α → Int) (l : List α) (z : α) :
    z ∈ jsSort cmp l ↔ z ∈ l := by
  simp [jsSort, mem_foldl_insertCmp]

theorem pairwise_insertCmp {α : Type} (cmp : α → α → Int)
    (hconsist : ∀ a b, ¬ cmp a b ≤ 0 → cmp b a ≤ 0)
    (htrans : ∀ a b c, cmp a b ≤ 0 → cmp b c ≤ 0 → cmp a c ≤ 0)
    (x : α) (l : List α) (h : l.Pairwise (fun a b => cmp a b ≤ 0)) :
    (insertCmp cmp x l).Pairwise (fun a b => cmp a b ≤ 0) := by
  induction l with
  | nil => simp [insertCmp]
  | cons y ys ih =>
    rcases List.pairwise_cons.mp h with ⟨hy, hys⟩
    by_cases hc : cmp y x ≤ 0
    · rw [insertCmp, if_pos hc]
      refine List.pairwise_cons.mpr ⟨?_, ih hys⟩
      intro z hz
      rcases (mem_insertCmp cmp x z ys).mp hz with rfl | hz
      · exact hc
      · exact hy z hz
    · rw [insertCmp, if_neg hc]
      refine List.pairwise_cons.mpr ⟨?_, h⟩
      intro z hz
      rcases List.mem_cons.mp hz with hzy | hz
      · subst hzy; exact hconsist _ x hc
      · exact htrans x y z (hconsist y x hc) (hy z hz)

theorem pairwise_jsSort {α : Type} (cmp : α → α → Int)
    (hconsist : ∀ a b, ¬ cmp a b ≤ 0 → cmp b a ≤ 0)
    (htrans : ∀ a b c, cmp a b ≤ 0 → cmp b c ≤ 0 → cmp a c ≤ 0)
    (l : List α) :
    (jsSort cmp l).Pairwise (fun a b => cmp a b ≤ 0) := by
  suffices h : ∀ acc : List α, acc.Pairwise (fun a b => cmp a b ≤ 0) →
      (l.foldl (fun acc x => insertCmp cmp x acc) acc).Pairwise (fun a b => cmp a b ≤ 0) by
    exact h [] (by simp)
  induction l with
  | nil => intro acc hacc; simpa using hacc
  | cons y ys ih =>
    intro acc hacc
    exact ih _ (pairwise_insertCmp cmp hconsist htrans y acc hacc)

theorem getProp_salary (e : Employee) :
    e.getProp "salary" = (match e.salary with | some n => JSVal.num n | none => JSVal.null) :=
  rfl

theorem sortCmp_desc_null_null : sortCmp "desc" JSVal.null JSVal.null = 0 := rfl

theorem sortCmp_desc_null_num (y : Int) : sortCmp "desc" JSVal.null (JSVal.num y) = -1 := rfl

theorem sortCmp_desc_num_null (x : Int) : sortCmp "desc" (JSVal.num x) JSVal.null = 1 := rfl

theorem sortCmp_desc_num_num (x y : Int) :
    sortCmp "desc" (JSVal.num x) (JSVal.num y)
      = if y < x then -1 else if x < y then 1 else 0 := by
  show (if decide (y < x) = true then (-1 : Int) else if decide (x < y) = true then 1 else 0)
      = if y < x then -1 else if x < y then 1 else 0
  simp [decide_eq_true_eq]

/-- Ordering actually produced by a descending salary sort: rows with a null
salary come first, and among the rest the salaries are non-increasing. -/
def salaryDescBefore (a b : Employee) : Prop :=
  a.salary = none ∨ ∃ x y, a.salary = some x ∧ b.salary = some y ∧ y ≤ x

theorem sortCmp_salary_le_iff (a b : Employee) :
    sortCmp "desc" (a.getProp "salary") (b.getProp "salary") ≤ 0 ↔ salaryDescBefore a b := by
  rw [getProp_salary a, getProp_salary b]
  unfold salaryDescBefore
  rcases ha : a.salary with _ | x <;> rcases hb : b.salary with _ | y
  · simp [sortCmp_desc_null_null]
  · simp [sortCmp_desc_null_num]
  · simp [sortCmp_desc_num_null]
  · rw [sortCmp_desc_num_num]
    constructor
    · intro h
      refine Or.inr ⟨x, y, rfl, rfl, ?_⟩
      by_contra hxy
      rw [if_neg (by omega : ¬ y < x), if_pos (by omega : x < y)] at h
      omega
    · rintro (h | ⟨x', y', hx', hy', hle⟩)
      · exact absurd h (by simp)
      · obtain rfl : x = x' := by injection hx'
        obtain rfl : y = y' := by injection hy'
        split_ifs <;> omega

theorem salCmp_consist (a b : Employee)
    (h : ¬ sortCmp "desc" (a.getProp "salary") (b.getProp "salary") ≤ 0) :
    sortCmp "desc" (b.getProp "salary") (a.getProp "salary") ≤ 0 := by
  rw [sortCmp_salary_le_iff] at h ⊢
  unfold salaryDescBefore at h ⊢
  rcases ha : a.salary with _ | x <;> rcases hb : b.salary with _ | y
  · exact absurd (Or.inl ha) h
  · exact absurd (Or.inl ha) h
  · exact Or.inl rfl
  · refine Or.inr ⟨y, x, rfl, rfl, ?_⟩
    have hne : ¬ y ≤ x := fun hle => h (Or.inr ⟨x, y, ha, hb, hle⟩)
    omega

theorem salCmp_trans (a b c : Employee)
    (hab : sortCmp "desc" (a.getProp "salary") (b.getProp "salary") ≤ 0)
    (hbc : sortCmp "desc" (b.getProp "salary") (c.getProp "salary") ≤ 0) :
    sortCmp "desc" (a.getProp "salary") (c.getProp "salary") ≤ 0 := by
  rw [sortCmp_salary_le_iff] at hab hbc ⊢
  rcases hab with ha | ⟨x, y, ha, hb, hyx⟩
  · exact Or.inl ha
  · rcases hbc with hb' | ⟨y', z, hb', hc, hzy⟩
    · rw [hb] at hb'; cases hb'
    · rw [hb] at hb'
      injection hb' with hyy
      exact Or.inr ⟨x, z, ha, hc, by omega⟩

/-- Helper characterising `findByEmail`: it finds something precisely when
some record carries a case-insensitively equal email. -/
theorem findByEmail_isSome_iff (c : EmployeeCollection) (email : String) :
    (c.findByEmail email).isSome = true ↔
      ∃ emp ∈ c.employees, jsToLower emp.email = jsToLower email := by
  unfold EmployeeCollection.findByEmail
  rw [List.find?_isSome]
  simp

theorem jsToLower_ne_empty {t : String} (ht : t ≠ "") : jsToLower t ≠ "" := by
  intro h
  apply ht
  apply String.ext
  have hd : (jsToLower t).data = t.data.map Char.toLower := rfl
  rw [h] at hd
  have : t.data.map Char.toLower = [] := hd.symm
  rw [List.map_eq_nil_iff] at this
  rw [this]

theorem strIncludes_empty_left {t : String} (ht : t ≠ "") : strIncludes "" t = false := by
  have hd : t.data ≠ [] := by
    intro h
    exact ht (String.ext (by rw [h]))
  unfold strIncludes hasSub
  simp [List.isEmpty_iff, hd]

/-- Example inputs reconstructing the states the claims talk about. -/
def annE : Employee := Employee.create "a1" "d" { name := some "Ann", department := some "Eng" }

def benE : Employee := Employee.create "b1" "d" { name := some "Ben", department := some "Sales" }

def cAB : EmployeeCollection := EmployeeCollection.init.loadEmployees [annE, benE]

def cDeptHR : EmployeeCollection :=
  (EmployeeCollection.init.loadEmployees [annE]).setDepartmentFilters ["HR"]

def salA : Employee :=
  Employee.create "a" "d" { name := some "a", email := some "a@x.com", salary := some 100 }

def salB : Employee :=
  Employee.create "b" "d" { name := some "b", email := some "b@x.com", salary := some 50 }

/-- Two-record collection in which the second record got a null salary
through an `updateEmployee` call, then a descending salary sort. -/
def cSal : EmployeeCollection :=
  (((EmployeeCollection.init.loadEmployees [salA, salB]).updateEmployee "b"
    { salary := some none }).1).setSorting "salary" "desc"

def empOne : Employee := Employee.create "1" "d" { name := some "a", email := some "a@x.com" }

def empTwo : Employee := Employee.create "2" "d" { name := some "b", email := some "b@x.com" }

/-- Two active records, page size one, current page two. -/
def cPageTwo : EmployeeCollection :=
  ((EmployeeCollection.init.loadEmployees [empOne, empTwo]).setPageSize 1).setCurrentPage 2

/-- The page-two collection after both records were deactivated: the filtered
view is empty while the current page is still two. -/
def cEmptyPageTwo : EmployeeCollection :=
  ((cPageTwo.deactivateEmployee "1").1.deactivateEmployee "2").1

/-- One inactive record holding the email a:x. -/
def cInact : EmployeeCollection :=
  ((EmployeeCollection.init.loadEmployees [empOne]).deactivateEmployee "1").1

def newcomerE : Employee :=
  Employee.create "9" "d" { name := some "z", email := some "A@X.com" }

/-- One record with id 1 and email foo at x, lowercase. -/
def cFoo : EmployeeCollection :=
  EmployeeCollection.init.loadEmployees
    [Employee.create "1" "d" { name := some "Foo", email := some "foo@x.com" }]

def barE : Employee := Employee.create "2" "d" { name := some "Bar", email := some "FOO@X.COM" }

def baseEmp (i : String) : Employee :=
  Employee.create i "d" { name := some "e", email := some "e" }

def mkEmps (n : Nat) : List Employee := (List.range n).map (fun i => baseEmp (toString i))

/-- Forty-seven active records under the default page size of twenty-five. -/
def c47 : EmployeeCollection := EmployeeCollection.init.loadEmployees (mkEmps 47)

/-- Invariant claimed for the current page. -/
def pageInRange (c : EmployeeCollection) : Prop :=
  1 ≤ c.currentPage ∧ c.currentPage ≤ max 1 c.getTotalPages

instance pageInRangeDec (c : EmployeeCollection) : Decidable (pageInRange c) :=
  inferInstanceAs (Decidable (1 ≤ c.currentPage ∧ c.currentPage ≤ max 1 c.getTotalPages))

/-- The ordering the claim asserts for a descending salary sort: salaries
non-increasing with the null/undefined rows last. -/
def claimedDescOrderB (a b : Employee) : Bool :=
  match a.salary, b.salary with
  | _, none => true
  | some x, some y => decide (y ≤ x)
  | none, some _ => false

/-- Adjacent-pair check of a row ordering. -/
def adjacentOK (rel : Employee → Employee → Bool) : List Employee → Bool
  | a :: b :: rest => rel a b && adjacentOK rel (b :: rest)
  | _ => true

/-- C1 (counterexample): the page-bound invariant is not restored by
`removeEmployee`. In a reachable state with two active records, page size
one and current page two, removing a record succeeds but leaves
`currentPage = 2` above `max 1 totalPages = 1`. -/
theorem claim_C1_counterexample :
    (cPageTwo.removeEmployee "1").2 = true ∧
    (cPageTwo.removeEmployee "1").1.currentPage = 2 ∧
    (cPageTwo.removeEmployee "1").1.getTotalPages = 1 ∧
    ¬ pageInRange (cPageTwo.removeEmployee "1").1 := by
  decide

/-- C1 (amended): `currentPage` lies in `[1, max 1 totalPages]` after
`setCurrentPage`, `setSearchTerm`, `setDepartmentFilters` and `setPageSize`
(the operations that clamp or reset the page); the mutations that merely
recompute the view (`remove`, `deactivate`, `update`, `load`, `add`,
`setSorting`) do not re-clamp the page. -/
theorem claim_C1_page_invariant_amended (c : EmployeeCollection) (page : Int)
    (term : String) (deps : List String) (size : Int) :
    pageInRange (c.setCurrentPage page) ∧ pageInRange (c.setSearchTerm term) ∧
    pageInRange (c.setDepartmentFilters deps) ∧ pageInRange (c.setPageSize size) := by
  refine ⟨⟨?_, ?_⟩, ⟨?_, ?_⟩, ⟨?_, ?_⟩, ⟨?_, ?_⟩⟩ <;>
    simp only [pageInRange, EmployeeCollection.setCurrentPage, EmployeeCollection.setSearchTerm,
      EmployeeCollection.setDepartmentFilters, EmployeeCollection.setPageSize,
      EmployeeCollection.notifyObservers, EmployeeCollection.applyFilters,
      EmployeeCollection.getTotalPages] <;> omega

/-- C2 (counterexample): `setSorting` does not reset `currentPage` to 1; on
a reachable state sitting on page two it stays on page two. -/
theorem claim_C2_counterexample : (cPageTwo.setSorting "name" "asc").currentPage ≠ 1 := by
  decide

/-- C2 (amended): `setSearchTerm` and `setDepartmentFilters` each reset
`currentPage` to 1, recompute the filtered/sorted view under the new query
state, and notify observers once; `setSorting` recomputes the view and
notifies but leaves `currentPage` unchanged. -/
theorem claim_C2_filters_reset_amended (c : EmployeeCollection) (term : String)
    (deps : List String) (field direction : String) :
    ((c.setSearchTerm term).currentPage = 1 ∧
      (c.setSearchTerm term).filteredEmployees
        = ({ c with searchTerm := term, currentPage := 1 } : EmployeeCollection).applyFiltersList ∧
      (c.setSearchTerm term).notifications = c.notifications + 1) ∧
    ((c.setDepartmentFilters deps).currentPage = 1 ∧
      (c.setDepartmentFilters deps).filteredEmployees
        = ({ c with departmentFilters := deps, currentPage := 1 }
            : EmployeeCollection).applyFiltersList ∧
      (c.setDepartmentFilters deps).notifications = c.notifications + 1) ∧
    ((c.setSorting field direction).currentPage = c.currentPage ∧
      (c.setSorting field direction).filteredEmployees
        = ({ c with sortField := field, sortDirection := direction }
            : EmployeeCollection).applyFiltersList ∧
      (c.setSorting field direction).notifications = c.notifications + 1) :=
  ⟨⟨rfl, rfl, rfl⟩, ⟨rfl, rfl, rfl⟩, ⟨rfl, rfl, rfl⟩⟩

/-- C3 (counterexample): the duplicate check of `addEmployee` also counts
inactive records. Here every stored record is inactive, yet adding a
newcomer with the same email (in different letter case) fails. -/
theorem claim_C3_counterexample :
    cInact.employees.all (fun emp => !emp.isActive) = true ∧
    jsToLower (cInact.employees.headD newcomerE).email = jsToLower newcomerE.email ∧
    (cInact.addEmployee newcomerE).2
      = AddResult.failed "Employee with this email already exists" := by
  decide

/-- C3 (amended): `addEmployee` fails with the duplicate-email error exactly
when some record of the repository, active or inactive, carries a
case-insensitively equal email. -/
theorem claim_C3_duplicate_iff_amended (c : EmployeeCollection) (e : Employee) :
    (c.addEmployee e).2 = AddResult.failed "Employee with this email already exists" ↔
      ∃ emp ∈ c.employees, jsToLower emp.email = jsToLower e.email := by
  unfold EmployeeCollection.addEmployee
  by_cases h : (c.findByEmail e.email).isSome = true
  · simp [h, (findByEmail_isSome_iff c e.email).mp h]
  · have hne : ¬ ∃ emp ∈ c.employees, jsToLower emp.email = jsToLower e.email :=
      fun hex => h ((findByEmail_isSome_iff c e.email).mpr hex)
    simp [h, hne]

/-- C4: evaluating `updateEmployee` at the failing input. The repository
holds exactly one record, id 1 with email foo at x in lower case; updating
that same record to the same email in upper case trips the duplicate check
(the `findByEmail` lookup finds the record itself, and the strict-equality
guard does not recognise it), so the call throws instead of succeeding, and
the state is left unchanged. -/
theorem claim_C4_code_eval :
    (cFoo.findById "1").isSome = true ∧
    cFoo.employees.all (fun emp => emp.id == "1") = true ∧
    (cFoo.updateEmployee "1" { email := some "FOO@x.com" }).2
      = UpdateResult.dupError "Employee with this email already exists" ∧
    (cFoo.updateEmployee "1" { email := some "FOO@x.com" }).1 = cFoo := by
  decide

/-- C5: when some stored record carries a case-insensitively equal email,
`addEmployee` throws the duplicate-email error before any mutation: the
record list, the filtered view and the notification count are untouched. -/
theorem claim_C5_duplicate_add_rejected (c : EmployeeCollection) (e : Employee)
    (h : ∃ emp ∈ c.employees, jsToLower emp.email = jsToLower e.email) :
    (c.addEmployee e).1 = c ∧
    (c.addEmployee e).1.employees = c.employees ∧
    (c.addEmployee e).1.filteredEmployees = c.filteredEmployees ∧
    (c.addEmployee e).1.notifications = c.notifications ∧
    (c.addEmployee e).2 = AddResult.failed "Employee with this email already exists" := by
  have hs : (c.findByEmail e.email).isSome = true := (findByEmail_isSome_iff c e.email).mpr h
  unfold EmployeeCollection.addEmployee
  simp [hs]

/-- C5 (witness): the rejection theorem applied to the one-record repository
and a newcomer whose email differs only in letter case. -/
theorem claim_C5_witness :
    (cFoo.addEmployee barE).1 = cFoo ∧
    (cFoo.addEmployee barE).2 = AddResult.failed "Employee with this email already exists" := by
  have h : ∃ emp ∈ cFoo.employees, jsToLower emp.email = jsToLower barE.email := by decide
  exact ⟨(claim_C5_duplicate_add_rejected cFoo barE h).1,
    (claim_C5_duplicate_add_rejected cFoo barE h).2.2.2.2⟩

/-- C9: whatever error the user fetch throws, `fetchEmployees` swallows it
and returns the five documented mock employees, each of which validates with
no errors. -/
theorem claim_C9_fallback (err : String) :
    EmployeeAPI.fetchEmployees (.error err) = EmployeeAPI.getMockEmployees ∧
    EmployeeAPI.getMockEmployees.map (fun e => e.name)
      = ["John Doe", "Jane Smith", "Mike Johnson", "Sarah Wilson", "David Brown"] ∧
    EmployeeAPI.getMockEmployees.map Employee.validate
      = List.replicate 5 (true, ([] : List String)) :=
  ⟨rfl, by decide, by decide⟩

/-- C10: `Employee.update` keeps `id` (the merge skips that key) and ignores
keys that are not own properties; every source field takes the partial value
when the key is present and keeps its old value otherwise; and the derived
fields are recomputed from the post-merge source fields (in particular the
avatar is regenerated from the merged name). -/
theorem claim_C10_update_frame (e : Employee) (u : EmployeeUpdate) (i : Option String)
    (ks : List String) :
    (e.update u).id = e.id ∧
    e.update { u with id := i } = e.update u ∧
    e.update { u with unknownKeys := ks } = e.update u ∧
    (e.update u).name = u.name.getD e.name ∧
    (e.update u).email = u.email.getD e.email ∧
    (e.update u).phone = u.phone.getD e.phone ∧
    (e.update u).department = u.department.getD e.department ∧
    (e.update u).position = u.position.getD e.position ∧
    (e.update u).salary = u.salary.getD e.salary ∧
    (e.update u).hireDate = u.hireDate.getD e.hireDate ∧
    (e.update u).isActive = u.isActive.getD e.isActive ∧
    (e.update u).fullName = u.name.getD e.name ∧
    (e.update u).displaySalary = Helpers.formatCurrency (u.salary.getD e.salary) ∧
    (e.update u).formattedPhone = Helpers.formatPhone (u.phone.getD e.phone) ∧
    (e.update u).avatar = Employee.generateAvatar (u.name.getD e.name) :=
  ⟨rfl, rfl, rfl, rfl, rfl, rfl, rfl, rfl, rfl, rfl, rfl, rfl, rfl, rfl, rfl⟩

/-- C6 (counterexample): the filtered view is not "exactly the active
records matched by the search predicate" in every state: with a department
filter set to HR, the active record Ann (department Eng) matches the empty
term but is absent from the view. -/
theorem claim_C6_counterexample :
    annE.isActive = true ∧ annE ∈ (cDeptHR.setSearchTerm "").employees ∧
    Employee.matchesSearch annE "" = true ∧
    annE ∉ (cDeptHR.setSearchTerm "").filteredEmployees := by
  decide

/-- C6 (amended): after `setSearchTerm`, the view holds exactly the active
records that match the search predicate and also pass the department filter
(vacuously when no department filter is set); a record matches a non-empty
term exactly when one of name, email, department, position, phone contains
the term case-insensitively, and the empty term matches every record; on the
Ann/Ben example the term "eng" yields exactly Ann and the empty term yields
both. -/
theorem claim_C6_search_view_amended :
    (∀ (c : EmployeeCollection) (t : String) (e : Employee),
      e ∈ (c.setSearchTerm t).filteredEmployees ↔
        e ∈ c.employees ∧ e.isActive = true ∧ e.matchesSearch t = true ∧
          (c.departmentFilters = [] ∨ e.department ∈ c.departmentFilters)) ∧
    (∀ (e : Employee) (t : String), t ≠ "" →
      (e.matchesSearch t = true ↔
        ∃ f ∈ [e.name, e.email, e.department, e.position, e.phone],
          strIncludes (jsToLower f) (jsToLower t) = true)) ∧
    (∀ e : Employee, e.matchesSearch "" = true) ∧
    (cAB.setSearchTerm "eng").filteredEmployees = [annE] ∧
    (cAB.setSearchTerm "").filteredEmployees = [annE, benE] := by
  refine ⟨?_, ?_, ?_, by decide, by decide⟩
  · intro c t e
    have hview : (c.setSearchTerm t).filteredEmployees
        = EmployeeCollection.applyFiltersList { c with searchTerm := t, currentPage := 1 } := rfl
    rw [hview]
    simp only [EmployeeCollection.applyFiltersList, Helpers.sortByProperty]
    rw [mem_jsSort]
    by_cases hd : c.departmentFilters = []
    · by_cases ht : t = ""
      · subst ht
        simp [hd, List.mem_filter, Employee.matchesSearch]
      · simp only [hd, ht, List.mem_filter, and_assoc]
        simp [ht]
        tauto
    · have hdl : 0 < c.departmentFilters.length := List.length_pos.mpr hd
      by_cases ht : t = ""
      · subst ht
        simp [hd, hdl, List.mem_filter, Employee.matchesSearch, and_assoc]
        tauto
      · simp [hd, hdl, ht, List.mem_filter, and_assoc]
        tauto
  · intro e t ht
    unfold Employee.matchesSearch
    rw [if_neg ht, List.any_eq_true]
    constructor
    · rintro ⟨f, hf, hcond⟩
      rw [Bool.and_eq_true] at hcond
      exact ⟨f, hf, hcond.2⟩
    · rintro ⟨f, hf, hinc⟩
      refine ⟨f, hf, ?_⟩
      rw [Bool.and_eq_true]
      refine ⟨?_, hinc⟩
      rw [decide_eq_true_eq]
      intro hfe
      rw [hfe] at hinc
      have hz : strIncludes (jsToLower "") (jsToLower t) = false :=
        strIncludes_empty_left (jsToLower_ne_empty ht)
      rw [hz] at hinc
      simp at hinc
  · intro e
    rfl

/-- C6 (witness): the predicate characterisation applied to Ann and the
non-empty term "eng". -/
theorem claim_C6_witness :
    Employee.matchesSearch annE "eng" = true ↔
      ∃ f ∈ [annE.name, annE.email, annE.department, annE.position, annE.phone],
        strIncludes (jsToLower f) (jsToLower "eng") = true :=
  claim_C6_search_view_amended.2.1 annE "eng" (by decide)

/-- C7 (counterexample): a descending salary sort puts a null salary FIRST,
not last. In a reachable state where record b got a null salary through
`updateEmployee`, sorting by salary descending yields the null row before
the 100 row, violating the claimed non-increasing-with-nulls-last order. -/
theorem claim_C7_counterexample :
    cSal.filteredEmployees.map (fun e => e.salary) = [none, some 100] ∧
    adjacentOK claimedDescOrderB cSal.filteredEmployees = false := by
  decide

/-- C7 (amended): after `setSorting` with field salary and direction
descending, the view is ordered with all null/undefined salaries first and
the remaining salaries non-increasing (the comparator sends null first for
any direction other than ascending). -/
theorem claim_C7_salary_desc_amended (c : EmployeeCollection) :
    ((c.setSorting "salary" "desc").filteredEmployees).Pairwise salaryDescBefore :=
  List.Pairwise.imp (fun h => (sortCmp_salary_le_iff _ _).mp h)
    (pairwise_jsSort _ salCmp_consist salCmp_trans _)

/-- C8 (counterexample): with an empty filtered set the pagination info does
not always report `hasPrevious = false`: a reachable state that sat on page
two before every record was deactivated still reports `hasPrevious = true`. -/
theorem claim_C8_counterexample :
    cEmptyPageTwo.getPaginationInfo.totalItems = 0 ∧
    cEmptyPageTwo.getPaginationInfo.hasPrevious = true := by
  decide

/-- C8 (amended): with 47 filtered records and page size 25 the info reports
two pages, page one spanning display indices 1-25 with only a next page, and
page two spanning 26-47 with only a previous page; with an empty filtered
set (positive page size, page at least one) the display indices are zero and
`hasNext` is false, while `hasPrevious` is `currentPage > 1` (false exactly
when the state sits on page one). -/
theorem claim_C8_pagination_amended :
    c47.getPaginationInfo
      = { currentPage := 1, totalPages := 2, totalItems := 47, pageSize := 25,
          startIndex := 1, endIndex := 25, hasNext := true, hasPrevious := false } ∧
    (c47.setCurrentPage 2).getPaginationInfo
      = { currentPage := 2, totalPages := 2, totalItems := 47, pageSize := 25,
          startIndex := 26, endIndex := 47, hasNext := false, hasPrevious := true } ∧
    (∀ c : EmployeeCollection, c.filteredEmployees.length = 0 → 1 ≤ c.currentPage →
      0 < c.pageSize →
      c.getPaginationInfo.startIndex = 0 ∧ c.getPaginationInfo.endIndex = 0 ∧
      c.getPaginationInfo.hasNext = false ∧
      c.getPaginationInfo.hasPrevious = decide (1 < c.currentPage)) := by
  refine ⟨by decide, by decide, ?_⟩
  intro c h0 h1 hps
  have h2 : ((c.filteredEmployees.length : Int) + c.pageSize - 1) = c.pageSize - 1 := by
    rw [h0]; omega
  have htp : c.getTotalPages = 0 := by
    unfold EmployeeCollection.getTotalPages ceilDiv
    rw [h2]
    exact Int.ediv_eq_zero_of_lt (by omega) (by omega)
  have hti : (c.filteredEmployees.length : Int) = 0 := by rw [h0]; rfl
  unfold EmployeeCollection.getPaginationInfo
  simp only [htp, hti]
  norm_num
  omega

/-- C8 (witness): the empty-set clause applied to the freshly constructed
collection, which has an empty view, page one and page size twenty-five. -/
theorem claim_C8_witness :
    EmployeeCollection.init.getPaginationInfo.startIndex = 0 ∧
    EmployeeCollection.init.getPaginationInfo.endIndex = 0 ∧
    EmployeeCollection.init.getPaginationInfo.hasNext = false ∧
    EmployeeCollection.init.getPaginationInfo.hasPrevious
      = decide (1 < EmployeeCollection.init.currentPage) :=
  claim_C8_pagination_amended.2.2 EmployeeCollection.init rfl (by decide) (by decide)
